import Mathlib

/-!
# Service configuration resolution of the OpenAPI plugin

A shallow embedding of `openapi/plugin_config.go`: the method
`PluginConfiguration.getServiceConfiguration`, which resolves the service
configuration of a provider from the process environment or, failing that,
from the plugin configuration reader.

Go values are rendered as follows.

* `string` is `String`; the bytes delivered by an `io.Reader` are kept as text.
* `error` is `Option String`: `none` is the nil error, `some m` an error whose
  `Error()` text is `m` (every error of this file is built by `fmt.Errorf`).
* A Go result pair `(ServiceConfiguration, error)` stays a pair of options, so
  that "nil configuration" and "nil error" remain independent observations.
* A pointer `*ServiceConfigV1` is the nil pointer or a pointer to a record, and an
  interface value of type `ServiceConfiguration` holds such a pointer, so the
  interface that is not nil but holds the nil pointer is a value of its own.
* A method that reads a field through the nil pointer panics; `Eval` keeps the
  panic apart from a returned value, and `Outcome.panicked` records that the
  resolver did not return.
* The process environment is an explicit function from names to optional values.
* The collaborators whose code lives outside `plugin_config.go` and whose exact
  behaviour the resolver does not fix (upper-casing, YAML decoding, the URL
  syntax check and two message texts) are the fields of `Externals`.
-/

namespace Openapi

/-! ## Strings, environment, reader -/

/-- Substring test used for statements about message texts: `sub` occurs in `s`. -/
def Contains (s sub : String) : Prop := sub.data <:+: s.data

instance (s sub : String) : Decidable (Contains s sub) := by
  unfold Contains
  infer_instance

/-- Process environment: `none` for an unset variable, `some v` for a variable set to `v`
(possibly the empty string). -/
abbrev Environ := String → Option String

/-- Go `os.Getenv`: the value of the variable, or the empty string when it is unset. -/
def Getenv (env : Environ) (key : String) : String := (env key).getD ""

/-- Go `strconv.ParseBool`: the accepted spellings, and `(false, error)` for anything else. -/
def ParseBool (str : String) : Bool × Option String :=
  if str = "1" ∨ str = "t" ∨ str = "T" ∨ str = "true" ∨ str = "TRUE" ∨ str = "True" then
    (true, none)
  else if str = "0" ∨ str = "f" ∨ str = "F" ∨ str = "false" ∨ str = "FALSE" ∨ str = "False" then
    (false, none)
  else
    (false, some ("strconv.ParseBool: parsing \"" ++ str ++ "\": invalid syntax"))

/-- An `io.Reader` as far as `ioutil.ReadAll` can observe it: the bytes still to be delivered
and, when the stream breaks instead of reaching end of file, the error it then reports. -/
structure Reader where
  content : String
  failure : Option String
deriving DecidableEq, Repr

/-- Go `ioutil.ReadAll`: drains the reader. Yields the bytes, the error (nil at end of file)
and the reader afterwards, which has nothing left to deliver. -/
def ReadAll (r : Reader) : String × Option String × Reader :=
  (r.content, r.failure, { content := "", failure := r.failure })

/-! ## Data model -/

/-- Record of one service in version 1 of the plugin configuration schema: the swagger URL,
the insecure-skip-verify flag and the optional extension block, which the resolver only
passes through. -/
structure ServiceConfigV1 where
  SwaggerURL : String
  InsecureSkipVerify : Bool
  Extension : Option String
deriving DecidableEq, Repr

/-- Go pointer `*ServiceConfigV1`: the nil pointer, or a pointer to a record. -/
inductive ServiceConfigV1Ptr where
  | nil
  | ref (record : ServiceConfigV1)
deriving DecidableEq, Repr

/-- Go interface `ServiceConfiguration`, implemented by `*ServiceConfigV1`: a value of the
interface that is not the nil interface holds a pointer, which may be the nil pointer. The
nil interface is `none : Option ServiceConfiguration`, so `some ServiceConfigV1Ptr.nil` is
the interface value that compares unequal to `nil` and holds the nil pointer. -/
abbrev ServiceConfiguration := ServiceConfigV1Ptr

/-- Result of evaluating a Go call: the value it returns, or the run-time panic raised by
reading a field through the nil pointer. -/
inductive Eval (α : Type) where
  | ret (value : α)
  | nilDereference
deriving DecidableEq, Repr

/-- Version 1 of the plugin configuration schema: the mapping from service names to pointers
(Go `map[string]*ServiceConfigV1`, whose values may be nil), as an association list. -/
structure PluginConfigSchemaV1 where
  Services : List (String × ServiceConfigV1Ptr)
deriving DecidableEq, Repr

/-- Go interface `PluginConfigSchema`; version 1 is its implementation. -/
abbrev PluginConfigSchema := PluginConfigSchemaV1

/-- Collaborators of the resolver that are not defined in `plugin_config.go`. -/
structure Externals where
  /-- Go `strings.ToUpper`. -/
  ToUpper : String → String
  /-- Go `yaml.Unmarshal` into an empty `PluginConfigSchemaV1`: the decoded schema, or the
  text of the decoder error. -/
  Unmarshal : String → Except String PluginConfigSchemaV1
  /-- Whether a string is syntactically a URL, as checked by `ServiceConfigV1.Validate`. -/
  IsURL : String → Bool
  /-- Text of the error `ServiceConfigV1.Validate` returns for the URL it rejects. -/
  invalidURLText : String → String
  /-- Text of the not-found error `GetServiceConfig` returns for the name it misses. -/
  notFoundText : String → String

/-- Request context of one resolution: the provider name and the optional reader of the
plugin configuration file (`none` is the nil reader). -/
structure PluginConfiguration where
  ProviderName : String
  Configuration : Option Reader
deriving DecidableEq, Repr

/-! ## Constants and message formats of `plugin_config.go` -/

/-- File name used for the plugin configuration in messages. -/
def OpenAPIPluginConfigurationFileName : String := "terraform-provider-openapi.yaml"

/-- The format `OTF_VAR_%s_SWAGGER_URL` applied to a provider name by `fmt.Sprintf`. -/
def otfVarSwaggerURL (providerName : String) : String :=
  "OTF_VAR_" ++ providerName ++ "_SWAGGER_URL"

/-- Name of the variable holding the skip-verify flag. -/
def otfVarInsecureSkipVerify : String := "OTF_INSECURE_SKIP_VERIFY"

/-- Message of line 112: the read of the configuration reader failed. -/
def readErrorText : String :=
  "failed to read " ++ OpenAPIPluginConfigurationFileName ++ " configuration file"

/-- Message of line 116: the bytes did not unmarshal; `cause` is the decoder error. -/
def unmarshalErrorText (cause : String) : String :=
  "failed to unmarshall " ++ OpenAPIPluginConfigurationFileName ++
    " configuration file - error = " ++ cause

/-- Message of line 120: the schema did not validate. -/
def schemaErrorText (cause : String) : String :=
  "error occurred while validating '" ++ OpenAPIPluginConfigurationFileName ++
    "' - error = " ++ cause

/-- Message of line 124: the lookup of the service in the schema failed. -/
def lookupErrorText (cause : String) : String :=
  "error occurred when getting service configuration from plugin configuration file " ++
    OpenAPIPluginConfigurationFileName ++ " - error = " ++ cause

/-- Message of line 132: no configuration, or one with an empty swagger URL. -/
def missingErrorText (providerName : String) : String :=
  "swagger url not provided, please export OTF_VAR_<provider_name>_SWAGGER_URL env variable with the URL where '" ++
    providerName ++
    "' service provider is exposing the swagger file OR create a plugin configuration file at ~/.terraform.d/plugins following the Plugin configuration schema specifications"

/-- Message of line 136: the service configuration did not validate. -/
def invalidErrorText (providerName cause : String) : String :=
  "service configuration for '" ++ providerName ++ "' not valid: " ++ cause

/-! ## Operations defined outside `plugin_config.go` -/

/-- Modelled from the spec: `terraformutils.MultiEnvDefaultString` is not part of the
sources at hand. Section 4.1: the value of the first candidate variable that is set to a
non-empty string; the default, with no error, when there is none. -/
def MultiEnvDefaultString (env : Environ) : List String → String → String × Option String
  | [], dv => (dv, none)
  | k :: ks, dv => if Getenv env k ≠ "" then (Getenv env k, none) else MultiEnvDefaultString env ks dv

/-- Modelled from the spec: the constructor `NewServiceConfigV1` is not part of the sources
at hand. Section 3: a pointer to a record built from the URL, the flag and the optional
extension. -/
def NewServiceConfigV1 (swaggerURL : String) (insecureSkipVerify : Bool)
    (extension : Option String) : ServiceConfigV1Ptr :=
  ServiceConfigV1Ptr.ref
    { SwaggerURL := swaggerURL, InsecureSkipVerify := insecureSkipVerify, Extension := extension }

/-- Modelled from the spec: method `GetSwaggerURL` of `*ServiceConfigV1` is not part of the
sources at hand. Section 3: the swagger URL of the record; read through the nil pointer it
panics. -/
def ServiceConfigV1Ptr.GetSwaggerURL : ServiceConfigV1Ptr → Eval String
  | .nil => .nilDereference
  | .ref s => .ret s.SwaggerURL

/-- Modelled from the spec: method `IsInsecureSkipVerifyEnabled` of `*ServiceConfigV1` is not
part of the sources at hand. Section 3: the flag of the record; read through the nil pointer
it panics. -/
def ServiceConfigV1Ptr.IsInsecureSkipVerifyEnabled : ServiceConfigV1Ptr → Eval Bool
  | .nil => .nilDereference
  | .ref s => .ret s.InsecureSkipVerify

/-- Modelled from the spec: method `Validate` of `*ServiceConfigV1` is not part of the
sources at hand. Section 3: validation fails when the URL is empty or not syntactically a
URL, and (section 8) succeeds otherwise; the URL is read through the receiver, so on the nil
pointer the method panics. -/
def ServiceConfigV1Ptr.Validate (x : Externals) : ServiceConfigV1Ptr → Eval (Option String)
  | .nil => .nilDereference
  | .ref s =>
    if s.SwaggerURL = "" ∨ x.IsURL s.SwaggerURL = false then
      .ret (some (x.invalidURLText s.SwaggerURL))
    else
      .ret none

/-- Modelled from the spec: `PluginConfigSchemaV1.GetServiceConfig` is not part of the
sources at hand. Section 4.2: looks the name up in the service mapping; a not-found failure
when the key is absent, the associated configuration otherwise. The pointer found is
returned inside the interface as it is, the nil pointer included. -/
def PluginConfigSchemaV1.GetServiceConfig (x : Externals) (p : PluginConfigSchemaV1)
    (providerName : String) : Option ServiceConfiguration × Option String :=
  match p.Services.lookup providerName with
  | some serviceConfig => (some serviceConfig, none)
  | none => (none, some (x.notFoundText providerName))

/-- The walk of `PluginConfigSchemaV1.Validate` over the entries: the validation of each
entry in turn, stopping at the first that fails or panics. -/
def validateEntries (x : Externals) : List (String × ServiceConfigV1Ptr) → Eval (Option String)
  | [] => .ret none
  | entry :: rest =>
    match entry.2.Validate x with
    | .nilDereference => .nilDereference
    | .ret (some err) => .ret (some err)
    | .ret none => validateEntries x rest

/-- Modelled from the spec: `PluginConfigSchemaV1.Validate` is not part of the sources at
hand. Section 4.2: walks every entry of the mapping and fails on the first entry whose
validation fails; an empty mapping is valid. -/
def PluginConfigSchemaV1.Validate (x : Externals) (p : PluginConfigSchemaV1) :
    Eval (Option String) :=
  validateEntries x p.Services

/-! ## The resolver -/

/-- Calls the resolver makes to its collaborators, in the order of execution. -/
inductive Call where
  | envLookup
  | parseBool
  | getServiceConfig
  | readAll
  | unmarshal
  | validateSchema
  | validateService
deriving DecidableEq, Repr

/-- What one run of `getServiceConfiguration` leaves behind: the two Go results, the
configuration reader after the call, the collaborator calls that were made, and whether the
run panicked instead of returning (both results are then nil, nothing being returned). -/
structure Outcome where
  config : Option ServiceConfiguration
  err : Option String
  reader : Option Reader
  calls : List Call
  panicked : Bool
deriving DecidableEq, Repr

/-- Lines 131-139: the final check on the configuration obtained so far, its validation,
and the return. `reader` and `calls` are the reader state and the calls made before. The
test `serviceConfig == nil` holds for the nil interface only. -/
def finalCheck (x : Externals) (providerName : String) (serviceConfig : Option ServiceConfiguration)
    (reader : Option Reader) (calls : List Call) : Outcome :=
  match serviceConfig with
  | none => ⟨none, some (missingErrorText providerName), reader, calls, false⟩
  | some sc =>
    match sc.GetSwaggerURL with
    | .nilDereference => ⟨none, none, reader, calls, true⟩
    | .ret url =>
      if url = "" then
        ⟨none, some (missingErrorText providerName), reader, calls, false⟩
      else
        match sc.Validate x with
        | .nilDereference => ⟨none, none, reader, calls ++ [Call.validateService], true⟩
        | .ret (some err) =>
          ⟨none, some (invalidErrorText providerName err), reader,
            calls ++ [Call.validateService], false⟩
        | .ret none => ⟨some sc, none, reader, calls ++ [Call.validateService], false⟩

/-- Lines 108-127: the fall-back to the plugin configuration reader, entered with no
configuration from the environment, followed by the final check. The schema that
`yaml.Unmarshal` fills is still the empty one of line 84 here. -/
def fromReader (x : Externals) (p : PluginConfiguration) (calls : List Call) : Outcome :=
  match p.Configuration with
  | none => finalCheck x p.ProviderName none none calls
  | some r =>
    match ReadAll r with
    | (_, some _, r') => ⟨none, some readErrorText, some r', calls ++ [Call.readAll], false⟩
    | (source, none, r') =>
      match x.Unmarshal source with
      | .error err =>
        ⟨none, some (unmarshalErrorText err), some r', calls ++ [Call.readAll, Call.unmarshal],
          false⟩
      | .ok pluginConfigV1 =>
        let pluginConfig : PluginConfigSchema := pluginConfigV1
        match pluginConfig.Validate x with
        | .nilDereference =>
          ⟨none, none, some r', calls ++ [Call.readAll, Call.unmarshal, Call.validateSchema],
            true⟩
        | .ret (some err) =>
          ⟨none, some (schemaErrorText err), some r',
            calls ++ [Call.readAll, Call.unmarshal, Call.validateSchema], false⟩
        | .ret none =>
          match pluginConfig.GetServiceConfig x p.ProviderName with
          | (_, some err) =>
            ⟨none, some (lookupErrorText err), some r',
              calls ++ [Call.readAll, Call.unmarshal, Call.validateSchema, Call.getServiceConfig],
              false⟩
          | (serviceConfig, none) =>
            finalCheck x p.ProviderName serviceConfig (some r')
              (calls ++ [Call.readAll, Call.unmarshal, Call.validateSchema, Call.getServiceConfig])

/-- Method `getServiceConfiguration` of `PluginConfiguration` (lines 82-140), run in the
environment `env`. -/
def getServiceConfiguration (x : Externals) (env : Environ) (p : PluginConfiguration) : Outcome :=
  let swaggerURLEnvVar := otfVarSwaggerURL p.ProviderName
  let swaggerURLEnvVars := [swaggerURLEnvVar, x.ToUpper swaggerURLEnvVar]
  match MultiEnvDefaultString env swaggerURLEnvVars "" with
  | (_, some err) => ⟨none, some err, p.Configuration, [Call.envLookup], false⟩
  | (apiDiscoveryURL, none) =>
    if apiDiscoveryURL ≠ "" then
      let skipVerify := (ParseBool (Getenv env otfVarInsecureSkipVerify)).1
      let pluginConfigV1 : PluginConfigSchemaV1 :=
        { Services := [(p.ProviderName, NewServiceConfigV1 apiDiscoveryURL skipVerify none)] }
      match pluginConfigV1.GetServiceConfig x p.ProviderName with
      | (_, some err) =>
        ⟨none, some err, p.Configuration,
          [Call.envLookup, Call.parseBool, Call.getServiceConfig], false⟩
      | (some serviceConfig, none) =>
        finalCheck x p.ProviderName (some serviceConfig) p.Configuration
          [Call.envLookup, Call.parseBool, Call.getServiceConfig]
      | (none, none) =>
        fromReader x p [Call.envLookup, Call.parseBool, Call.getServiceConfig]
    else
      fromReader x p [Call.envLookup]

/-! ## Sample collaborators and inputs -/

/-- A sample URL syntax check: the text starts with an `http` or `https` scheme and holds
no blank. -/
def sampleIsURL (s : String) : Bool :=
  (("http://".data <+: s.data) || ("https://".data <+: s.data)) && !(s.data.contains ' ')

/-- The document of the file scenario. -/
def sampleDocument : String :=
  "services:\n  example:\n    swagger_url: \"https://file.example.com/spec.json\"\n"

/-- Sample collaborators: ASCII upper-casing, a decoder that knows `sampleDocument` and three
further documents (one of them with a null entry for `example`, decoded to the nil pointer)
and rejects everything else, and the sample URL check. -/
def sampleExternals : Externals where
  ToUpper := fun s => String.mk (s.data.map Char.toUpper)
  Unmarshal := fun source =>
    if source = sampleDocument then
      .ok { Services := [("example", NewServiceConfigV1 "https://file.example.com/spec.json" false none)] }
    else if source = "services:\n  example:\n" then
      .ok { Services := [("example", ServiceConfigV1Ptr.nil)] }
    else if source = "services:\n  example:\n    swagger_url: \"\"\n" then
      .ok { Services := [("example", NewServiceConfigV1 "" false none)] }
    else if source = "services:\n  example:\n    swagger_url: \"not a url\"\n" then
      .ok { Services := [("example", NewServiceConfigV1 "not a url" false none)] }
    else
      .error "yaml: unmarshal errors"
  IsURL := sampleIsURL
  invalidURLText := fun url => "service swagger URL configuration not valid ('" ++ url ++ "')"
  notFoundText := fun name => "'" ++ name ++ "' not found in provider's services configuration"

/-- Environment with the given variables set and every other variable unset. -/
def envOf (vars : List (String × String)) : Environ := fun key => vars.lookup key

/-- An outcome that, unless the run panicked, is all-or-nothing: a nil configuration with an
error, or a configuration with a nil error; and a returned configuration has a non-empty URL
and passes its own validation. -/
def NoPartialResult (x : Externals) (o : Outcome) : Prop :=
  (o.panicked = false →
      (o.config = none ∧ o.err ≠ none) ∨ (o.config ≠ none ∧ o.err = none)) ∧
    ∀ cfg, o.config = some cfg →
      (∃ url, cfg.GetSwaggerURL = .ret url ∧ url ≠ "") ∧ cfg.Validate x = .ret none

/-- Environment of the first scenario: only the swagger URL of `example` is set. -/
def envExampleURL : Environ :=
  envOf [("OTF_VAR_example_SWAGGER_URL", "https://api.example.com/swagger.json")]

/-- Environment whose swagger URL for `example` is a non-empty text that is no URL. -/
def envNotURL : Environ := envOf [("OTF_VAR_example_SWAGGER_URL", "not a url")]

/-- Environment with the upper-cased swagger URL variable of `example` and the skip-verify
flag set to `true`. -/
def envUpperSkip : Environ :=
  envOf [("OTF_VAR_EXAMPLE_SWAGGER_URL", "https://api.example.com/swagger.json"),
    ("OTF_INSECURE_SKIP_VERIFY", "true")]

/-- Environment whose two swagger URL variables of `example` are set to the empty string. -/
def envEmptyValues : Environ :=
  envOf [("OTF_VAR_example_SWAGGER_URL", ""), ("OTF_VAR_EXAMPLE_SWAGGER_URL", "")]

/-- Reader over the document of the file scenario. -/
def sampleReader : Reader := { content := sampleDocument, failure := none }

/-- Reader over bytes that are no plugin configuration. -/
def junkReader : Reader := { content := "services: [unclosed", failure := none }

/-- Reader whose stream breaks with `unexpected EOF`. -/
def brokenReader : Reader := { content := "services:", failure := some "unexpected EOF" }

/-- Reader over a document whose entry for `example` has an empty swagger URL. -/
def emptyURLReader : Reader :=
  { content := "services:\n  example:\n    swagger_url: \"\"\n", failure := none }

/-- Reader over a document whose entry for `example` is null. -/
def nullEntryReader : Reader := { content := "services:\n  example:\n", failure := none }

/-- Reader over a document whose entry for `example` has a swagger URL that is no URL. -/
def notURLReader : Reader :=
  { content := "services:\n  example:\n    swagger_url: \"not a url\"\n", failure := none }

/-! ## Auxiliary facts -/

theorem contains_middle (a b c : String) : Contains (a ++ b ++ c) b := by
  unfold Contains
  simp only [String.data_append]
  exact ⟨a.data, c.data, rfl⟩

theorem contains_tail (a b : String) : Contains (a ++ b) b := by
  unfold Contains
  simp only [String.data_append]
  exact ⟨a.data, [], by simp⟩

theorem contains_trans {a b c : String} (h₁ : Contains a b) (h₂ : Contains b c) :
    Contains a c := by
  unfold Contains at *
  exact List.IsInfix.trans h₂ h₁

theorem contains_append_left {a c : String} (b : String) (h : Contains a c) :
    Contains (a ++ b) c := by
  unfold Contains at *
  simp only [String.data_append]
  exact List.IsInfix.trans h ⟨[], b.data, by simp⟩

theorem multiEnv_no_error (env : Environ) (ks : List String) (dv : String) :
    (MultiEnvDefaultString env ks dv).2 = none := by
  induction ks with
  | nil => rfl
  | cons k ks ih =>
    unfold MultiEnvDefaultString
    split <;> simp [ih]

theorem multiEnv_pair (env : Environ) (ks : List String) (dv : String) :
    MultiEnvDefaultString env ks dv = ((MultiEnvDefaultString env ks dv).1, none) := by
  rw [← multiEnv_no_error env ks dv]

theorem multiEnv_first {env : Environ} {k : String} (ks : List String) (dv : String)
    (h : Getenv env k ≠ "") : MultiEnvDefaultString env (k :: ks) dv = (Getenv env k, none) := by
  simp [MultiEnvDefaultString, h]

theorem multiEnv_two_empty {env : Environ} {k₁ k₂ : String}
    (h₁ : Getenv env k₁ = "") (h₂ : Getenv env k₂ = "") :
    MultiEnvDefaultString env [k₁, k₂] "" = ("", none) := by
  simp [MultiEnvDefaultString, h₁, h₂]

theorem multiEnv_two_nonempty {env : Environ} {k₁ k₂ : String}
    (h : Getenv env k₁ ≠ "" ∨ Getenv env k₂ ≠ "") :
    (MultiEnvDefaultString env [k₁, k₂] "").1 ≠ "" := by
  by_cases h₁ : Getenv env k₁ = ""
  · have h₂ : Getenv env k₂ ≠ "" := by
      rcases h with h | h
      · exact absurd h₁ h
      · exact h
    simp [MultiEnvDefaultString, h₁, h₂]
  · simp [MultiEnvDefaultString, h₁]

theorem lookup_single (name : String) (c : ServiceConfigV1Ptr) :
    List.lookup name [(name, c)] = some c := by
  simp [List.lookup]

/-- With a non-empty URL from the environment, the resolver goes straight to the final check
on the record synthesized from that URL and the skip-verify flag. -/
theorem getServiceConfiguration_of_env (x : Externals) (env : Environ) (p : PluginConfiguration)
    (h : (MultiEnvDefaultString env
      [otfVarSwaggerURL p.ProviderName, x.ToUpper (otfVarSwaggerURL p.ProviderName)] "").1 ≠ "") :
    getServiceConfiguration x env p =
      finalCheck x p.ProviderName
        (some (NewServiceConfigV1
          (MultiEnvDefaultString env
            [otfVarSwaggerURL p.ProviderName, x.ToUpper (otfVarSwaggerURL p.ProviderName)] "").1
          (ParseBool (Getenv env otfVarInsecureSkipVerify)).1 none))
        p.Configuration [Call.envLookup, Call.parseBool, Call.getServiceConfig] := by
  unfold getServiceConfiguration
  simp only []
  rw [multiEnv_pair]
  simp only [h, ne_eq, not_false_eq_true, if_true, PluginConfigSchemaV1.GetServiceConfig,
    lookup_single]

/-- With no non-empty URL in the environment, the resolver falls back to the reader. -/
theorem getServiceConfiguration_of_no_env (x : Externals) (env : Environ) (p : PluginConfiguration)
    (h₁ : Getenv env (otfVarSwaggerURL p.ProviderName) = "")
    (h₂ : Getenv env (x.ToUpper (otfVarSwaggerURL p.ProviderName)) = "") :
    getServiceConfiguration x env p = fromReader x p [Call.envLookup] := by
  unfold getServiceConfiguration
  simp only []
  rw [multiEnv_two_empty h₁ h₂]
  simp

theorem validate_ref_of_valid {x : Externals} {s : ServiceConfigV1} (h₁ : s.SwaggerURL ≠ "")
    (h₂ : x.IsURL s.SwaggerURL = true) : (ServiceConfigV1Ptr.ref s).Validate x = .ret none := by
  simp [ServiceConfigV1Ptr.Validate, h₁, h₂]

theorem validate_eq_ret_none_iff (x : Externals) (sc : ServiceConfigV1Ptr) :
    sc.Validate x = .ret none ↔
      ∃ s, sc = .ref s ∧ s.SwaggerURL ≠ "" ∧ x.IsURL s.SwaggerURL = true := by
  cases sc with
  | nil => simp [ServiceConfigV1Ptr.Validate]
  | ref s =>
    constructor
    · intro h
      refine ⟨s, rfl, ?_⟩
      by_cases hv : s.SwaggerURL = "" ∨ x.IsURL s.SwaggerURL = false
      · simp [ServiceConfigV1Ptr.Validate, hv] at h
      · simpa [not_or] using hv
    · rintro ⟨s', hs, h₁, h₂⟩
      cases hs
      exact validate_ref_of_valid h₁ h₂

theorem finalCheck_of_valid (x : Externals) (name : String) {s : ServiceConfigV1}
    (reader : Option Reader) (calls : List Call) (h₁ : s.SwaggerURL ≠ "")
    (h₂ : x.IsURL s.SwaggerURL = true) :
    finalCheck x name (some (.ref s)) reader calls =
      ⟨some (.ref s), none, reader, calls ++ [Call.validateService], false⟩ := by
  simp [finalCheck, ServiceConfigV1Ptr.GetSwaggerURL, h₁, validate_ref_of_valid h₁ h₂]

theorem finalCheck_none (x : Externals) (name : String) (reader : Option Reader)
    (calls : List Call) :
    finalCheck x name none reader calls =
      ⟨none, some (missingErrorText name), reader, calls, false⟩ := rfl

/-- The final check on the interface that holds the nil pointer: the test of line 131 lets
it through and the read of its URL panics. -/
theorem finalCheck_nil_pointer (x : Externals) (name : String) (reader : Option Reader)
    (calls : List Call) :
    finalCheck x name (some ServiceConfigV1Ptr.nil) reader calls =
      ⟨none, none, reader, calls, true⟩ := rfl

theorem finalCheck_reader (x : Externals) (name : String) (sc : Option ServiceConfiguration)
    (reader : Option Reader) (calls : List Call) :
    (finalCheck x name sc reader calls).reader = reader := by
  unfold finalCheck
  split
  · rfl
  · split
    · rfl
    · split
      · rfl
      · split <;> rfl

theorem finalCheck_ref_returns (x : Externals) (name : String) (s : ServiceConfigV1)
    (reader : Option Reader) (calls : List Call) :
    (finalCheck x name (some (.ref s)) reader calls).panicked = false := by
  simp only [finalCheck, ServiceConfigV1Ptr.GetSwaggerURL, ServiceConfigV1Ptr.Validate]
  split
  · rfl
  · by_cases hv : s.SwaggerURL = "" ∨ x.IsURL s.SwaggerURL = false
    · simp [hv]
    · simp [hv]

theorem finalCheck_noPartialResult (x : Externals) (name : String)
    (sc : Option ServiceConfiguration) (reader : Option Reader) (calls : List Call) :
    NoPartialResult x (finalCheck x name sc reader calls) := by
  unfold finalCheck NoPartialResult
  split
  · simp
  · rename_i c
    split
    · simp
    · rename_i url hurl
      split
      · simp
      · rename_i hne
        split
        · simp
        · simp
        · rename_i hv
          refine ⟨fun _ => Or.inr ⟨by simp, rfl⟩, ?_⟩
          intro cfg hcfg
          simp only [Option.some.injEq] at hcfg
          subst hcfg
          exact ⟨⟨url, hurl, hne⟩, hv⟩

theorem fromReader_noPartialResult (x : Externals) (p : PluginConfiguration) (calls : List Call) :
    NoPartialResult x (fromReader x p calls) := by
  unfold fromReader
  split
  · exact finalCheck_noPartialResult ..
  · split
    · simp [NoPartialResult]
    · split
      · simp [NoPartialResult]
      · simp only []
        split
        · simp [NoPartialResult]
        · simp [NoPartialResult]
        · split
          · simp [NoPartialResult]
          · exact finalCheck_noPartialResult ..

/-- Every run either goes to the final check with a record synthesized from the environment
and the reader untouched, or falls back to the reader after the environment lookup. -/
theorem getServiceConfiguration_cases (x : Externals) (env : Environ) (p : PluginConfiguration) :
    (∃ s calls, getServiceConfiguration x env p =
        finalCheck x p.ProviderName (some (.ref s)) p.Configuration calls) ∨
      getServiceConfiguration x env p = fromReader x p [Call.envLookup] := by
  by_cases h : (MultiEnvDefaultString env
      [otfVarSwaggerURL p.ProviderName, x.ToUpper (otfVarSwaggerURL p.ProviderName)] "").1 = ""
  · right
    unfold getServiceConfiguration
    simp only []
    rw [multiEnv_pair]
    simp [h]
  · left
    exact ⟨_, _, getServiceConfiguration_of_env x env p h⟩

/-- Whenever the call returns, it returns either a nil configuration with an error or a
configuration with a nil error, and a returned configuration has a non-empty URL and passes
its own validation. -/
theorem returned_outcome_whole (x : Externals) (env : Environ) (p : PluginConfiguration) :
    NoPartialResult x (getServiceConfiguration x env p) := by
  rcases getServiceConfiguration_cases x env p with ⟨s, calls, h⟩ | h
  · rw [h]
    exact finalCheck_noPartialResult ..
  · rw [h]
    exact fromReader_noPartialResult ..

theorem finalCheck_err (x : Externals) (name : String) (sc : Option ServiceConfiguration)
    (reader : Option Reader) (calls : List Call) :
    (finalCheck x name sc reader calls).err = none ∨
      (finalCheck x name sc reader calls).err = some (missingErrorText name) ∨
      ∃ cause, (finalCheck x name sc reader calls).err = some (invalidErrorText name cause) := by
  unfold finalCheck
  split
  · exact Or.inr (Or.inl rfl)
  · split
    · exact Or.inl rfl
    · split
      · exact Or.inr (Or.inl rfl)
      · split
        · exact Or.inl rfl
        · exact Or.inr (Or.inr ⟨_, rfl⟩)
        · exact Or.inl rfl

theorem finalCheck_calls (x : Externals) (name : String) (sc : Option ServiceConfiguration)
    (reader : Option Reader) (calls : List Call) :
    (finalCheck x name sc reader calls).calls = calls ∨
      (finalCheck x name sc reader calls).calls = calls ++ [Call.validateService] := by
  unfold finalCheck
  split
  · exact Or.inl rfl
  · split
    · exact Or.inl rfl
    · split
      · exact Or.inl rfl
      · split
        · exact Or.inr rfl
        · exact Or.inr rfl
        · exact Or.inr rfl

/-- The two Go results of the final check, and whether it panics, depend on the collaborators
only through the URL check and its message, and not on the reader or the calls made before. -/
theorem finalCheck_results_congr (x x' : Externals) (name : String)
    (sc : Option ServiceConfiguration) (reader reader' : Option Reader) (calls calls' : List Call)
    (h₁ : x'.IsURL = x.IsURL) (h₂ : x'.invalidURLText = x.invalidURLText) :
    (finalCheck x' name sc reader' calls').config = (finalCheck x name sc reader calls).config ∧
      (finalCheck x' name sc reader' calls').err = (finalCheck x name sc reader calls).err ∧
      (finalCheck x' name sc reader' calls').panicked =
        (finalCheck x name sc reader calls).panicked := by
  have hv : ∀ c : ServiceConfigV1Ptr, c.Validate x' = c.Validate x := by
    intro c
    cases c with
    | nil => rfl
    | ref s => simp [ServiceConfigV1Ptr.Validate, h₁, h₂]
  unfold finalCheck
  cases sc with
  | none => exact ⟨rfl, rfl, rfl⟩
  | some c =>
    simp only [hv]
    split
    · exact ⟨rfl, rfl, rfl⟩
    · split
      · exact ⟨rfl, rfl, rfl⟩
      · split <;> exact ⟨rfl, rfl, rfl⟩

theorem head_ne_of_ne {a b : String} (h : a.data.head? ≠ b.data.head?) : a ≠ b := by
  intro hab
  exact h (by rw [hab])

theorem missing_ne_read (name : String) : missingErrorText name ≠ readErrorText := by
  apply head_ne_of_ne
  simp [missingErrorText, readErrorText, String.data_append]

theorem missing_ne_unmarshal (name cause : String) :
    missingErrorText name ≠ unmarshalErrorText cause := by
  apply head_ne_of_ne
  simp [missingErrorText, unmarshalErrorText, String.data_append]

theorem missing_ne_schema (name cause : String) :
    missingErrorText name ≠ schemaErrorText cause := by
  apply head_ne_of_ne
  simp [missingErrorText, schemaErrorText, String.data_append]

theorem missing_ne_lookup (name cause : String) :
    missingErrorText name ≠ lookupErrorText cause := by
  apply head_ne_of_ne
  simp [missingErrorText, lookupErrorText, String.data_append]

theorem invalid_ne_read (name cause : String) : invalidErrorText name cause ≠ readErrorText := by
  apply head_ne_of_ne
  simp [invalidErrorText, readErrorText, String.data_append]

theorem invalid_ne_unmarshal (name cause cause' : String) :
    invalidErrorText name cause ≠ unmarshalErrorText cause' := by
  apply head_ne_of_ne
  simp [invalidErrorText, unmarshalErrorText, String.data_append]

theorem invalid_ne_schema (name cause cause' : String) :
    invalidErrorText name cause ≠ schemaErrorText cause' := by
  apply head_ne_of_ne
  simp [invalidErrorText, schemaErrorText, String.data_append]

theorem getenv_of_some {env : Environ} {key value : String} (h : env key = some value) :
    Getenv env key = value := by
  simp [Getenv, h]

theorem getenv_of_none {env : Environ} {key : String} (h : env key = none) :
    Getenv env key = "" := by
  simp [Getenv, h]

/-- With a nil reader the call returns, and the error, if any, is the missing-configuration
error or the value-validation error. -/
theorem nil_reader_err (x : Externals) (env : Environ) (name : String) :
    (getServiceConfiguration x env ⟨name, none⟩).panicked = false ∧
    ((getServiceConfiguration x env ⟨name, none⟩).err = none ∨
      (getServiceConfiguration x env ⟨name, none⟩).err = some (missingErrorText name) ∨
      ∃ cause,
        (getServiceConfiguration x env ⟨name, none⟩).err =
          some (invalidErrorText name cause)) := by
  rcases getServiceConfiguration_cases x env ⟨name, none⟩ with ⟨s, calls, h⟩ | h
  · rw [h]
    exact ⟨finalCheck_ref_returns .., finalCheck_err ..⟩
  · rw [h]
    exact ⟨rfl, Or.inr (Or.inl rfl)⟩

theorem finalCheck_new_of_valid (x : Externals) (name U : String) (skipVerify : Bool)
    (reader : Option Reader) (calls : List Call) (hU : U ≠ "") (hurl : x.IsURL U = true) :
    finalCheck x name (some (NewServiceConfigV1 U skipVerify none)) reader calls =
      ⟨some (NewServiceConfigV1 U skipVerify none), none, reader,
        calls ++ [Call.validateService], false⟩ := by
  unfold NewServiceConfigV1
  exact finalCheck_of_valid x name reader calls hU hurl

theorem finalCheck_new_returns (x : Externals) (name U : String) (skipVerify : Bool)
    (reader : Option Reader) (calls : List Call) :
    (finalCheck x name (some (NewServiceConfigV1 U skipVerify none)) reader calls).panicked
      = false := by
  unfold NewServiceConfigV1
  exact finalCheck_ref_returns ..

theorem fromReader_reads (x : Externals) (name : String) (r : Reader) (calls : List Call) :
    (fromReader x ⟨name, some r⟩ calls).reader = some { content := "", failure := r.failure } ∧
      Call.readAll ∈ (fromReader x ⟨name, some r⟩ calls).calls := by
  obtain ⟨content, failure⟩ := r
  unfold fromReader
  cases failure with
  | some e => exact ⟨rfl, by simp [ReadAll]⟩
  | none =>
    simp only [ReadAll]
    cases x.Unmarshal content with
    | error e => exact ⟨rfl, by simp⟩
    | ok schema =>
      simp only []
      cases PluginConfigSchemaV1.Validate x schema with
      | nilDereference => exact ⟨rfl, by simp⟩
      | ret verdict =>
        cases verdict with
        | some e => exact ⟨rfl, by simp⟩
        | none =>
          simp only []
          rcases hg : PluginConfigSchemaV1.GetServiceConfig x schema name with ⟨sc, _ | e⟩
          · simp only []
            refine ⟨finalCheck_reader .., ?_⟩
            rcases finalCheck_calls x name sc (some { content := "", failure := none })
              (calls ++ [Call.readAll, Call.unmarshal, Call.validateSchema,
                Call.getServiceConfig]) with hc | hc
            · rw [hc]
              simp
            · rw [hc]
              simp
          · exact ⟨rfl, by simp⟩

theorem parseBool_of_error {v : String} (h : (ParseBool v).2 ≠ none) : (ParseBool v).1 = false := by
  unfold ParseBool at h ⊢
  split
  · rename_i h'
    simp [h'] at h
  · split <;> rfl

theorem validateEntries_lookup {x : Externals} {name : String} {sc : ServiceConfigV1Ptr} :
    ∀ {l : List (String × ServiceConfigV1Ptr)}, validateEntries x l = .ret none →
      l.lookup name = some sc → sc.Validate x = .ret none
  | [], _, h => by simp [List.lookup] at h
  | (k, v) :: l, hv, h => by
    unfold validateEntries at hv
    cases hvv : v.Validate x with
    | nilDereference => simp [hvv] at hv
    | ret verdict =>
      cases verdict with
      | some e => simp [hvv] at hv
      | none =>
        simp only [hvv] at hv
        unfold List.lookup at h
        split at h
        · simp only [Option.some.injEq] at h
          subst h
          exact hvv
        · exact validateEntries_lookup hv h

theorem schema_validate_entry {x : Externals} {schema : PluginConfigSchemaV1} {name : String}
    {sc : ServiceConfigV1Ptr} (hv : schema.Validate x = .ret none)
    (hl : schema.Services.lookup name = some sc) : sc.Validate x = .ret none :=
  validateEntries_lookup hv hl

/-- The fall-back over a reader that is read to the end and decodes to a valid schema. -/
theorem fromReader_of_decoded (x : Externals) (name : String) (r : Reader) (calls : List Call)
    {schema : PluginConfigSchemaV1} (hread : r.failure = none)
    (hdec : x.Unmarshal r.content = .ok schema) (hvalid : schema.Validate x = .ret none) :
    fromReader x ⟨name, some r⟩ calls =
      match schema.GetServiceConfig x name with
      | (_, some err) =>
        ⟨none, some (lookupErrorText err), some { content := "", failure := none },
          calls ++ [Call.readAll, Call.unmarshal, Call.validateSchema, Call.getServiceConfig],
          false⟩
      | (serviceConfig, none) =>
        finalCheck x name serviceConfig (some { content := "", failure := none })
          (calls ++ [Call.readAll, Call.unmarshal, Call.validateSchema, Call.getServiceConfig]) := by
  unfold fromReader
  simp only [ReadAll, hread, hdec, hvalid]

theorem wrapped_causes_retained (name cause : String) :
    Contains (unmarshalErrorText cause) cause ∧ Contains (schemaErrorText cause) cause ∧
      Contains (lookupErrorText cause) cause ∧ Contains (invalidErrorText name cause) cause :=
  ⟨contains_tail _ _, contains_tail _ _, contains_tail _ _, contains_tail _ _⟩

/-! ## Resolution from the environment -/

/-- C1, as amended: for every service name `S` and every non-empty `U` that is syntactically
a URL, if the variable `OTF_VAR_S_SWAGGER_URL` is set to `U` the call returns, with a nil
error and a configuration whose `GetSwaggerURL()` is `U`, for the nil reader and for every
supplied one. -/
theorem env_url_resolves (x : Externals) (env : Environ) (S U : String)
    (reader : Option Reader) (hU : U ≠ "") (hurl : x.IsURL U = true)
    (henv : env (otfVarSwaggerURL S) = some U) :
    (getServiceConfiguration x env ⟨S, reader⟩).panicked = false ∧
      (getServiceConfiguration x env ⟨S, reader⟩).err = none ∧
      ∃ cfg, (getServiceConfiguration x env ⟨S, reader⟩).config = some cfg ∧
        cfg.GetSwaggerURL = .ret U := by
  have hget : Getenv env (otfVarSwaggerURL S) ≠ "" := by
    rw [getenv_of_some henv]
    exact hU
  have hm : MultiEnvDefaultString env [otfVarSwaggerURL S, x.ToUpper (otfVarSwaggerURL S)] ""
      = (U, none) := by
    rw [multiEnv_first _ _ hget, getenv_of_some henv]
  have hne : (MultiEnvDefaultString env
      [otfVarSwaggerURL (PluginConfiguration.mk S reader).ProviderName,
        x.ToUpper (otfVarSwaggerURL (PluginConfiguration.mk S reader).ProviderName)] "").1 ≠ "" := by
    show (MultiEnvDefaultString env [otfVarSwaggerURL S, x.ToUpper (otfVarSwaggerURL S)] "").1 ≠ ""
    rw [hm]
    exact hU
  have e := getServiceConfiguration_of_env x env ⟨S, reader⟩ hne
  simp only [hm] at e
  rw [e, finalCheck_new_of_valid x S U _ reader _ hU hurl]
  exact ⟨rfl, rfl, _, rfl, rfl⟩

/-- C1, witness: the scenario with service `example`, its URL in the environment and no reader. -/
theorem env_url_resolves_witness :
    (getServiceConfiguration sampleExternals envExampleURL ⟨"example", none⟩).panicked = false ∧
      (getServiceConfiguration sampleExternals envExampleURL ⟨"example", none⟩).err = none ∧
      ∃ cfg, (getServiceConfiguration sampleExternals envExampleURL ⟨"example", none⟩).config
          = some cfg ∧
        cfg.GetSwaggerURL = .ret "https://api.example.com/swagger.json" :=
  env_url_resolves sampleExternals envExampleURL "example" "https://api.example.com/swagger.json"
    none (by decide) (by decide) (by decide)

/-- C1 as stated fails: the variable `OTF_VAR_example_SWAGGER_URL` holds the non-empty text
`not a url`, and the call returns no configuration but the value-validation error. -/
theorem env_url_not_a_url_fails :
    envNotURL (otfVarSwaggerURL "example") = some "not a url" ∧ "not a url" ≠ "" ∧
      (getServiceConfiguration sampleExternals envNotURL ⟨"example", none⟩).config = none ∧
      (getServiceConfiguration sampleExternals envNotURL ⟨"example", none⟩).err =
        some (invalidErrorText "example" (sampleExternals.invalidURLText "not a url")) := by
  decide

/-- C3: when neither swagger-URL candidate of `S` has a non-empty value and the reader is nil,
the call returns a nil configuration and the missing-configuration error, whose text names
`OTF_VAR_<provider_name>_SWAGGER_URL` and the plugin configuration file; and with a nil reader,
whatever the environment, the call returns and the error is never the file-read, the
file-parse or the schema-validation error. -/
theorem missing_configuration_without_reader (x : Externals) (env : Environ) (S : String)
    (h₁ : Getenv env (otfVarSwaggerURL S) = "")
    (h₂ : Getenv env (x.ToUpper (otfVarSwaggerURL S)) = "") :
    (getServiceConfiguration x env ⟨S, none⟩).config = none ∧
      (getServiceConfiguration x env ⟨S, none⟩).err = some (missingErrorText S) ∧
      Contains (missingErrorText S) "OTF_VAR_<provider_name>_SWAGGER_URL" ∧
      Contains (missingErrorText S) "plugin configuration file" ∧
      ∀ env' : Environ,
        (getServiceConfiguration x env' ⟨S, none⟩).panicked = false ∧
        (getServiceConfiguration x env' ⟨S, none⟩).err ≠ some readErrorText ∧
        ∀ cause,
          (getServiceConfiguration x env' ⟨S, none⟩).err ≠ some (unmarshalErrorText cause) ∧
          (getServiceConfiguration x env' ⟨S, none⟩).err ≠ some (schemaErrorText cause) := by
  have h := getServiceConfiguration_of_no_env x env ⟨S, none⟩ h₁ h₂
  refine ⟨by rw [h]; rfl, by rw [h]; rfl, ?_, ?_, ?_⟩
  · unfold missingErrorText
    exact contains_append_left _ (contains_append_left _
      (contains_middle "swagger url not provided, please export "
        "OTF_VAR_<provider_name>_SWAGGER_URL" " env variable with the URL where '"))
  · unfold missingErrorText
    exact contains_trans (contains_tail _ _)
      (contains_middle "' service provider is exposing the swagger file OR create a "
        "plugin configuration file"
        " at ~/.terraform.d/plugins following the Plugin configuration schema specifications")
  · intro env'
    refine ⟨(nil_reader_err x env' S).1, ?_⟩
    rcases (nil_reader_err x env' S).2 with h' | h' | ⟨c, h'⟩
    · rw [h']
      exact ⟨by simp, fun _ => ⟨by simp, by simp⟩⟩
    · rw [h']
      refine ⟨?_, fun cause => ⟨?_, ?_⟩⟩
      · simpa using missing_ne_read S
      · simpa using missing_ne_unmarshal S cause
      · simpa using missing_ne_schema S cause
    · rw [h']
      refine ⟨?_, fun cause => ⟨?_, ?_⟩⟩
      · simpa using invalid_ne_read S c
      · simpa using invalid_ne_unmarshal S c cause
      · simpa using invalid_ne_schema S c cause

/-- C3, witness: service `example`, an empty environment, no reader. -/
theorem missing_configuration_without_reader_witness :
    (getServiceConfiguration sampleExternals (envOf []) ⟨"example", none⟩).err =
      some (missingErrorText "example") :=
  (missing_configuration_without_reader sampleExternals (envOf []) "example"
    (by decide) (by decide)).2.1

/-- C6: when a swagger-URL candidate of `S` has a non-empty value, the call returns, leaves
the reader as it was and makes no read, and its results are the same for every reader (nil,
failing, or of any content) and every decoder. -/
theorem environment_precedes_reader (x : Externals) (env : Environ) (S : String)
    (reader : Option Reader)
    (h : Getenv env (otfVarSwaggerURL S) ≠ "" ∨
      Getenv env (x.ToUpper (otfVarSwaggerURL S)) ≠ "") :
    (getServiceConfiguration x env ⟨S, reader⟩).reader = reader ∧
      Call.readAll ∉ (getServiceConfiguration x env ⟨S, reader⟩).calls ∧
      (getServiceConfiguration x env ⟨S, reader⟩).panicked = false ∧
      ∀ (decode : String → Except String PluginConfigSchemaV1) (reader' : Option Reader),
        (getServiceConfiguration { x with Unmarshal := decode } env ⟨S, reader'⟩).config =
            (getServiceConfiguration x env ⟨S, reader⟩).config ∧
          (getServiceConfiguration { x with Unmarshal := decode } env ⟨S, reader'⟩).err =
            (getServiceConfiguration x env ⟨S, reader⟩).err ∧
          (getServiceConfiguration { x with Unmarshal := decode } env ⟨S, reader'⟩).panicked =
            false := by
  have hne := multiEnv_two_nonempty h
  have key : ∀ (y : Externals) (r : Option Reader), y.ToUpper = x.ToUpper →
      getServiceConfiguration y env ⟨S, r⟩ =
        finalCheck y S
          (some (NewServiceConfigV1
            (MultiEnvDefaultString env
              [otfVarSwaggerURL S, x.ToUpper (otfVarSwaggerURL S)] "").1
            (ParseBool (Getenv env otfVarInsecureSkipVerify)).1 none))
          r [Call.envLookup, Call.parseBool, Call.getServiceConfig] := by
    intro y r hy
    have := getServiceConfiguration_of_env y env ⟨S, r⟩ (by simpa [hy] using hne)
    simpa [hy] using this
  refine ⟨?_, ?_, ?_, ?_⟩
  · rw [key x reader rfl]
    exact finalCheck_reader ..
  · rw [key x reader rfl]
    rcases finalCheck_calls x S
      (some (NewServiceConfigV1
        (MultiEnvDefaultString env [otfVarSwaggerURL S, x.ToUpper (otfVarSwaggerURL S)] "").1
        (ParseBool (Getenv env otfVarInsecureSkipVerify)).1 none))
      reader [Call.envLookup, Call.parseBool, Call.getServiceConfig] with hc | hc
    · rw [hc]
      decide
    · rw [hc]
      decide
  · rw [key x reader rfl]
    exact finalCheck_new_returns ..
  · intro decode reader'
    rw [key x reader rfl, key { x with Unmarshal := decode } reader' rfl]
    have hc := finalCheck_results_congr x { x with Unmarshal := decode } S
      (some (NewServiceConfigV1
        (MultiEnvDefaultString env [otfVarSwaggerURL S, x.ToUpper (otfVarSwaggerURL S)] "").1
        (ParseBool (Getenv env otfVarInsecureSkipVerify)).1 none))
      reader reader' [Call.envLookup, Call.parseBool, Call.getServiceConfig]
      [Call.envLookup, Call.parseBool, Call.getServiceConfig] rfl rfl
    exact ⟨hc.1, hc.2.1, finalCheck_new_returns ..⟩

/-- C6, witness: with the URL of `example` in the environment, a reader over junk bytes is
left as it was. -/
theorem environment_precedes_reader_witness :
    (getServiceConfiguration sampleExternals envExampleURL ⟨"example", some junkReader⟩).reader =
      some junkReader :=
  (environment_precedes_reader sampleExternals envExampleURL "example" (some junkReader)
    (Or.inl (by decide))).1

/-! ## Empty values and the skip-verify flag -/

/-- C7: with the swagger-URL candidates of `S` set to the empty string the call does what it
does with them unset, and in both cases it is the fall-back to the reader: a supplied reader
is read and drained. -/
theorem empty_value_same_as_unset (x : Externals) (env env' : Environ) (S : String)
    (reader : Option Reader)
    (h₁ : env (otfVarSwaggerURL S) = some "")
    (h₂ : env (x.ToUpper (otfVarSwaggerURL S)) = some "")
    (h₁' : env' (otfVarSwaggerURL S) = none)
    (h₂' : env' (x.ToUpper (otfVarSwaggerURL S)) = none) :
    getServiceConfiguration x env ⟨S, reader⟩ = getServiceConfiguration x env' ⟨S, reader⟩ ∧
      getServiceConfiguration x env ⟨S, reader⟩ = fromReader x ⟨S, reader⟩ [Call.envLookup] ∧
      ∀ r, reader = some r →
        Call.readAll ∈ (getServiceConfiguration x env ⟨S, reader⟩).calls ∧
          (getServiceConfiguration x env ⟨S, reader⟩).reader =
            some { content := "", failure := r.failure } := by
  have e := getServiceConfiguration_of_no_env x env ⟨S, reader⟩
    (getenv_of_some h₁) (getenv_of_some h₂)
  have e' := getServiceConfiguration_of_no_env x env' ⟨S, reader⟩
    (getenv_of_none h₁') (getenv_of_none h₂')
  refine ⟨by rw [e, e'], e, ?_⟩
  intro r hr
  subst hr
  rw [e]
  exact ⟨(fromReader_reads x S r _).2, (fromReader_reads x S r _).1⟩

/-- C7, witness: service `example` with both variables set to the empty string, against the
empty environment, over the reader of the file scenario. -/
theorem empty_value_same_as_unset_witness :
    getServiceConfiguration sampleExternals envEmptyValues ⟨"example", some sampleReader⟩ =
      getServiceConfiguration sampleExternals (envOf []) ⟨"example", some sampleReader⟩ :=
  (empty_value_same_as_unset sampleExternals envEmptyValues (envOf []) "example"
    (some sampleReader) (by decide) (by decide) (by decide) (by decide)).1

/-- C8: when the environment yields the non-empty swagger URL `U` for `S`, the call returns,
and it fails exactly when `U` is rejected as a URL, whatever `OTF_INSECURE_SKIP_VERIFY`
holds; and for a valid `U` the returned configuration has `IsInsecureSkipVerifyEnabled()`
false when the variable is unset or holds a text that does not parse as a boolean, and true
when it holds `true`. -/
theorem skip_verify_from_environment (x : Externals) (env : Environ) (S U : String)
    (reader : Option Reader) (hU : U ≠ "")
    (henv : MultiEnvDefaultString env [otfVarSwaggerURL S, x.ToUpper (otfVarSwaggerURL S)] ""
      = (U, none)) :
    (getServiceConfiguration x env ⟨S, reader⟩).panicked = false ∧
      ((getServiceConfiguration x env ⟨S, reader⟩).err = none ↔ x.IsURL U = true) ∧
      (x.IsURL U = true →
        ∃ cfg, (getServiceConfiguration x env ⟨S, reader⟩).config = some cfg ∧
          (env otfVarInsecureSkipVerify = none →
            cfg.IsInsecureSkipVerifyEnabled = .ret false) ∧
          (∀ v, env otfVarInsecureSkipVerify = some v → (ParseBool v).2 ≠ none →
            cfg.IsInsecureSkipVerifyEnabled = .ret false) ∧
          (env otfVarInsecureSkipVerify = some "true" →
            cfg.IsInsecureSkipVerifyEnabled = .ret true)) := by
  have hne : (MultiEnvDefaultString env
      [otfVarSwaggerURL (PluginConfiguration.mk S reader).ProviderName,
        x.ToUpper (otfVarSwaggerURL (PluginConfiguration.mk S reader).ProviderName)] "").1 ≠ "" := by
    show (MultiEnvDefaultString env [otfVarSwaggerURL S, x.ToUpper (otfVarSwaggerURL S)] "").1 ≠ ""
    rw [henv]
    exact hU
  have e := getServiceConfiguration_of_env x env ⟨S, reader⟩ hne
  simp only [henv] at e
  refine ⟨?_, ?_, ?_⟩
  · rw [e]
    exact finalCheck_new_returns ..
  · rw [e]
    by_cases hurl : x.IsURL U = true
    · rw [finalCheck_new_of_valid x S U _ reader _ hU hurl]
      simp [hurl]
    · simp [finalCheck, ServiceConfigV1Ptr.GetSwaggerURL, ServiceConfigV1Ptr.Validate,
        NewServiceConfigV1, hU, hurl]
  · intro hurl
    rw [e, finalCheck_new_of_valid x S U _ reader _ hU hurl]
    refine ⟨_, rfl, ?_, ?_, ?_⟩
    · intro hv
      simp [ServiceConfigV1Ptr.IsInsecureSkipVerifyEnabled, NewServiceConfigV1, Getenv, hv,
        ParseBool]
    · intro v hv hp
      simp only [ServiceConfigV1Ptr.IsInsecureSkipVerifyEnabled, NewServiceConfigV1, Getenv, hv,
        Option.getD_some]
      rw [parseBool_of_error hp]
    · intro hv
      simp [ServiceConfigV1Ptr.IsInsecureSkipVerifyEnabled, NewServiceConfigV1, Getenv, hv,
        ParseBool]

/-- C8, witness: the URL of `example` comes from the upper-cased variable and the flag
variable holds `true`; the call returns a configuration with the flag enabled. -/
theorem skip_verify_from_environment_witness :
    ∃ cfg, (getServiceConfiguration sampleExternals envUpperSkip ⟨"example", none⟩).config =
        some cfg ∧
      cfg.IsInsecureSkipVerifyEnabled = .ret true :=
  match (skip_verify_from_environment sampleExternals envUpperSkip "example"
    "https://api.example.com/swagger.json" none (by decide) (by decide)).2.2 (by decide) with
  | ⟨cfg, hcfg, _, _, htrue⟩ => ⟨cfg, hcfg, htrue (by decide)⟩

/-! ## Resolution from the reader -/

/-- C2, as amended: when neither swagger-URL candidate of `S` has a non-empty value and the
supplied reader is read to the end and decodes to a schema that passes schema validation and
holds an entry for `S` with URL `U2`, the call returns, with a nil error and a configuration
whose `GetSwaggerURL()` is `U2`. -/
theorem file_entry_resolves (x : Externals) (env : Environ) (S U2 : String) (r : Reader)
    (schema : PluginConfigSchemaV1) (sc : ServiceConfiguration)
    (h₁ : Getenv env (otfVarSwaggerURL S) = "")
    (h₂ : Getenv env (x.ToUpper (otfVarSwaggerURL S)) = "")
    (hread : r.failure = none) (hdec : x.Unmarshal r.content = .ok schema)
    (hvalid : schema.Validate x = .ret none)
    (hentry : schema.Services.lookup S = some sc) (hurl : sc.GetSwaggerURL = .ret U2) :
    (getServiceConfiguration x env ⟨S, some r⟩).panicked = false ∧
      (getServiceConfiguration x env ⟨S, some r⟩).err = none ∧
      ∃ cfg, (getServiceConfiguration x env ⟨S, some r⟩).config = some cfg ∧
        cfg.GetSwaggerURL = .ret U2 := by
  obtain ⟨s, hs, hne, hok⟩ :=
    (validate_eq_ret_none_iff x sc).1 (schema_validate_entry hvalid hentry)
  subst hs
  rw [getServiceConfiguration_of_no_env x env ⟨S, some r⟩ h₁ h₂,
    fromReader_of_decoded x S r _ hread hdec hvalid]
  simp only [PluginConfigSchemaV1.GetServiceConfig, hentry]
  rw [finalCheck_of_valid x S _ _ hne hok]
  exact ⟨rfl, rfl, _, rfl, hurl⟩

/-- C2, witness: the file scenario, with service `example` and an empty environment. -/
theorem file_entry_resolves_witness :
    (getServiceConfiguration sampleExternals (envOf [])
        ⟨"example", some sampleReader⟩).panicked = false ∧
      (getServiceConfiguration sampleExternals (envOf []) ⟨"example", some sampleReader⟩).err
        = none ∧
      ∃ cfg, (getServiceConfiguration sampleExternals (envOf [])
          ⟨"example", some sampleReader⟩).config = some cfg ∧
        cfg.GetSwaggerURL = .ret "https://file.example.com/spec.json" :=
  file_entry_resolves sampleExternals (envOf []) "example" "https://file.example.com/spec.json"
    sampleReader
    { Services := [("example", NewServiceConfigV1 "https://file.example.com/spec.json" false none)] }
    (NewServiceConfigV1 "https://file.example.com/spec.json" false none)
    (by decide) (by decide) (by decide) rfl (by decide) (by decide) (by decide)

/-- C2 as stated fails: with an empty environment, a reader whose document decodes to a
schema with an entry for `example` yields no configuration when the URL of that entry is
empty, and none when it is the text `not a url`. -/
theorem file_entry_invalid_url_fails :
    (sampleExternals.Unmarshal emptyURLReader.content =
        .ok { Services := [("example", NewServiceConfigV1 "" false none)] } ∧
      (getServiceConfiguration sampleExternals (envOf [])
        ⟨"example", some emptyURLReader⟩).config = none) ∧
    (sampleExternals.Unmarshal notURLReader.content =
        .ok { Services := [("example", NewServiceConfigV1 "not a url" false none)] } ∧
      (getServiceConfiguration sampleExternals (envOf [])
        ⟨"example", some notURLReader⟩).config = none) :=
  ⟨⟨rfl, by decide⟩, ⟨rfl, by decide⟩⟩

/-- C5, as amended: when neither swagger-URL candidate of `S` has a non-empty value and the
supplied reader is read to the end, decodes and passes schema validation but the schema has
no entry for `S`, the call returns the service-lookup error of the configuration file,
which wraps the not-found error of `GetServiceConfig`; it is not the missing-configuration
error. -/
theorem service_not_found_is_lookup_error (x : Externals) (env : Environ) (S : String)
    (r : Reader) (schema : PluginConfigSchemaV1)
    (h₁ : Getenv env (otfVarSwaggerURL S) = "")
    (h₂ : Getenv env (x.ToUpper (otfVarSwaggerURL S)) = "")
    (hread : r.failure = none) (hdec : x.Unmarshal r.content = .ok schema)
    (hvalid : schema.Validate x = .ret none)
    (habsent : schema.Services.lookup S = none) :
    (schema.GetServiceConfig x S).2 = some (x.notFoundText S) ∧
      (getServiceConfiguration x env ⟨S, some r⟩).config = none ∧
      (getServiceConfiguration x env ⟨S, some r⟩).err =
        some (lookupErrorText (x.notFoundText S)) ∧
      (getServiceConfiguration x env ⟨S, some r⟩).err ≠ some (missingErrorText S) ∧
      (getServiceConfiguration x env ⟨S, some r⟩).panicked = false := by
  have e : getServiceConfiguration x env ⟨S, some r⟩ =
      ⟨none, some (lookupErrorText (x.notFoundText S)), some { content := "", failure := none },
        [Call.envLookup] ++
          [Call.readAll, Call.unmarshal, Call.validateSchema, Call.getServiceConfig], false⟩ := by
    rw [getServiceConfiguration_of_no_env x env ⟨S, some r⟩ h₁ h₂,
      fromReader_of_decoded x S r _ hread hdec hvalid]
    simp only [PluginConfigSchemaV1.GetServiceConfig, habsent]
  refine ⟨by simp [PluginConfigSchemaV1.GetServiceConfig, habsent], by rw [e], by rw [e], ?_,
    by rw [e]⟩
  rw [e]
  simpa using (missing_ne_lookup S (x.notFoundText S)).symm

/-- C5, witness: service `missing` looked up in the document of the file scenario. -/
theorem service_not_found_is_lookup_error_witness :
    (getServiceConfiguration sampleExternals (envOf []) ⟨"missing", some sampleReader⟩).err =
      some (lookupErrorText (sampleExternals.notFoundText "missing")) :=
  (service_not_found_is_lookup_error sampleExternals (envOf []) "missing" sampleReader
    { Services := [("example", NewServiceConfigV1 "https://file.example.com/spec.json" false none)] }
    (by decide) (by decide) (by decide) rfl (by decide) (by decide)).2.2.1

/-- C5 as stated fails: the document of the file scenario is read, decoded and validated, it
has no entry for `missing`, and the call returns the service-lookup error, which is not the
missing-configuration error. -/
theorem service_not_found_not_folded :
    (PluginConfigSchemaV1.mk
        [("example", NewServiceConfigV1 "https://file.example.com/spec.json" false none)]).Validate
        sampleExternals = .ret none ∧
      (getServiceConfiguration sampleExternals (envOf []) ⟨"missing", some sampleReader⟩).err =
        some (lookupErrorText (sampleExternals.notFoundText "missing")) ∧
      (getServiceConfiguration sampleExternals (envOf []) ⟨"missing", some sampleReader⟩).err ≠
        some (missingErrorText "missing") := by
  have e : (getServiceConfiguration sampleExternals (envOf [])
      ⟨"missing", some sampleReader⟩).err =
      some (lookupErrorText (sampleExternals.notFoundText "missing")) := rfl
  refine ⟨by decide, e, ?_⟩
  rw [e]
  simpa using (missing_ne_lookup "missing" (sampleExternals.notFoundText "missing")).symm

/-- C9 at the failing input: the read of the reader breaks with `unexpected EOF`; the call
returns the fixed file-read message, in which the cause does not occur. -/
theorem read_failure_drops_cause :
    brokenReader.failure = some "unexpected EOF" ∧
      (getServiceConfiguration sampleExternals (envOf []) ⟨"example", some brokenReader⟩).err =
        some "failed to read terraform-provider-openapi.yaml configuration file" ∧
      ¬ Contains "failed to read terraform-provider-openapi.yaml configuration file"
        "unexpected EOF" := by
  decide

/-- C10: when neither swagger-URL candidate of `S` has a non-empty value and the supplied
reader is read to the end but its bytes do not decode, the call returns the file-parse
error, whose text contains `terraform-provider-openapi.yaml`, and it has made neither the
schema validation nor the service lookup. -/
theorem unparseable_file_is_parse_error (x : Externals) (env : Environ) (S cause : String)
    (r : Reader)
    (h₁ : Getenv env (otfVarSwaggerURL S) = "")
    (h₂ : Getenv env (x.ToUpper (otfVarSwaggerURL S)) = "")
    (hread : r.failure = none) (hdec : x.Unmarshal r.content = .error cause) :
    (getServiceConfiguration x env ⟨S, some r⟩).config = none ∧
      (getServiceConfiguration x env ⟨S, some r⟩).err = some (unmarshalErrorText cause) ∧
      Contains (unmarshalErrorText cause) "terraform-provider-openapi.yaml" ∧
      (getServiceConfiguration x env ⟨S, some r⟩).calls =
        [Call.envLookup, Call.readAll, Call.unmarshal] ∧
      Call.validateSchema ∉ (getServiceConfiguration x env ⟨S, some r⟩).calls ∧
      Call.getServiceConfig ∉ (getServiceConfiguration x env ⟨S, some r⟩).calls ∧
      (getServiceConfiguration x env ⟨S, some r⟩).panicked = false := by
  have e : getServiceConfiguration x env ⟨S, some r⟩ =
      ⟨none, some (unmarshalErrorText cause), some { content := "", failure := none },
        [Call.envLookup, Call.readAll, Call.unmarshal], false⟩ := by
    rw [getServiceConfiguration_of_no_env x env ⟨S, some r⟩ h₁ h₂]
    unfold fromReader
    simp [ReadAll, hread, hdec]
  refine ⟨by rw [e], by rw [e], ?_, by rw [e], by rw [e]; simp, by rw [e]; simp, by rw [e]⟩
  unfold unmarshalErrorText OpenAPIPluginConfigurationFileName
  exact contains_append_left _ (contains_middle _ _ _)

/-- C10, witness: service `example`, an empty environment, a reader over junk bytes. -/
theorem unparseable_file_is_parse_error_witness :
    (getServiceConfiguration sampleExternals (envOf []) ⟨"example", some junkReader⟩).err =
      some (unmarshalErrorText "yaml: unmarshal errors") :=
  (unparseable_file_is_parse_error sampleExternals (envOf []) "example" "yaml: unmarshal errors"
    junkReader (by decide) (by decide) (by decide) rfl).2.1

/-! ## The null entry -/

/-- C4 at the failing input: with an empty environment and a document whose entry for
`example` is null, the decoded map holds the nil pointer for `example` and the call panics
instead of returning: neither a configuration nor an error comes back. The test of line 131
by itself lets the interface that holds the nil pointer through, whatever the collaborators
are, and the read of its URL panics. -/
theorem null_entry_panics :
    sampleExternals.Unmarshal nullEntryReader.content =
        .ok { Services := [("example", ServiceConfigV1Ptr.nil)] } ∧
      (getServiceConfiguration sampleExternals (envOf [])
        ⟨"example", some nullEntryReader⟩).panicked = true ∧
      (getServiceConfiguration sampleExternals (envOf [])
        ⟨"example", some nullEntryReader⟩).config = none ∧
      (getServiceConfiguration sampleExternals (envOf [])
        ⟨"example", some nullEntryReader⟩).err = none ∧
      ∀ (x : Externals) (name : String) (reader : Option Reader) (calls : List Call),
        (finalCheck x name (some ServiceConfigV1Ptr.nil) reader calls).panicked = true :=
  ⟨rfl, by decide, by decide, by decide, fun _ _ _ _ => rfl⟩

end Openapi
